import Mathlib

/-
Verification development for the Dip moderation pipeline.

Shallow embedding of the Python sources:
  llm-src/main.py          (LLMProcessor: rule fetching, prompting, answer parsing)
  prepare-info-src/main.py (InfoPreparator: the fan-in aggregator)
  decider-src/main.py      (RuleDecider: notification and enforcement dispatch)
  src/bot.py + src/db.py   (violation action handling and decision records)

Pure data is translated directly; stateful handlers become explicit state
passing; database tables become lists of rows; queue consumption becomes
functions from parsed payloads to effects.  Machine integers are Int (no
overflow is possible in any code path modelled here).
-/

/-! ## Python string helpers

Models of the Python string primitives the evaluator relies on, on the
character-list representation (text is handed around as List Char so that
every concrete evaluation reduces in the kernel), restricted to the ASCII
strings the claims and the queue payloads use (non-ASCII digit forms
accepted by Python int are not modelled; no theorem below depends on
such inputs). -/

/-- Python str.strip(): drop leading and trailing whitespace. -/
def pyStrip (l : List Char) : List Char :=
  ((l.dropWhile Char.isWhitespace).reverse.dropWhile Char.isWhitespace).reverse

/-- Python str.split(sep) for a one-character separator: cut at every
occurrence; the empty string yields one empty part. -/
def pySplitChar (sep : Char) : List Char → List (List Char)
  | [] => [[]]
  | c :: rest =>
    let r := pySplitChar sep rest
    if c = sep then [] :: r
    else
      match r with
      | [] => [[c]]
      | h :: t => (c :: h) :: t

/-- Python str.split(sep, 1) for a one-character separator: none when the
separator is absent (Python then returns a single part, which the caller
rejects by the length-2 check), otherwise the text before and after the
first occurrence. -/
def pySplitFirst (sep : Char) : List Char → Option (List Char × List Char)
  | [] => none
  | c :: rest =>
    if c = sep then some ([], rest)
    else
      match pySplitFirst sep rest with
      | none => none
      | some (a, b) => some (c :: a, b)

/-- Python str.lower() on ASCII text. -/
def pyLower (l : List Char) : List Char :=
  l.map Char.toLower

/-- Tail of the digit body of a Python integer literal string: a run of
ASCII digits in which single underscores may appear between digits.  This
mirrors the CPython3 grammar: underscores must be surrounded by digits. -/
def pyDigitsAfterDigit : List Char → Bool
  | [] => true
  | c :: r =>
    if c.isDigit then pyDigitsAfterDigit r
    else if c = '_' then
      match r with
      | [] => false
      | d :: r2 => d.isDigit && pyDigitsAfterDigit r2
    else false

/-- Validity of the digit body of a Python integer literal string. -/
def pyDigitsValid : List Char → Bool
  | [] => false
  | c :: r => c.isDigit && pyDigitsAfterDigit r

/-- Numeric value of a digit run (underscores skipped). -/
def pyDigitsVal (l : List Char) : Nat :=
  (l.filter (fun c => c ≠ '_')).foldl (fun a c => 10 * a + (c.toNat - 48)) 0

/-- Model of Python int(s): surrounding whitespace stripped, an optional
single sign, then a valid digit body.  Returns none where Python raises
ValueError. -/
def pythonInt (s : List Char) : Option Int :=
  let cs := pyStrip s
  match cs with
  | [] => none
  | c :: rest =>
    if c = '-' then
      if pyDigitsValid rest then some (-(pyDigitsVal rest : Int)) else none
    else if c = '+' then
      if pyDigitsValid rest then some (pyDigitsVal rest : Int) else none
    else
      if pyDigitsValid (c :: rest) then some (pyDigitsVal (c :: rest) : Int) else none

/-! ## Rule Evaluator (llm-src/main.py) -/

/-- Row of the rules table (the columns the evaluator selects). -/
structure Rule where
  id : Int
  chat_id : Int
  rule_text : String
  explanation_text : String
  type : String
  activated : Bool
  deriving DecidableEq, Repr

/-- A violation as accumulated by LLMProcessor.parse_llm_response. -/
structure Violation where
  rule_id : Int
  rule_name : String
  rule_description : String
  deriving DecidableEq, Repr

/-- LLMProcessor.get_active_rules: SELECT ... WHERE chat_id = $1 AND
activated = TRUE ORDER BY id LIMIT 3.  The whole table is a list of rows;
the query filters, sorts ascending by id and keeps at most 3 rows. -/
def get_active_rules (db : List Rule) (chat_id : Int) : List Rule :=
  ((db.filter (fun r => r.chat_id = chat_id && r.activated)).insertionSort
    (fun a b => a.id ≤ b.id)).take 3

/-- Body of the line loop of LLMProcessor.parse_llm_response: a stripped
line contributes at most one violation; every failure mode (empty line, no
dot, int ValueError, index out of range, a word other than yes) falls
through to none, mirroring continue / the caught exception. -/
def parseLine (rules : List Rule) (line : List Char) : Option Violation :=
  let line := pyStrip line
  if line = [] then none
  else
    match pySplitFirst '.' line with
    | none => none
    | some (p0, p1) =>
      match pythonInt p0 with
      | none => none
      | some rule_num =>
        let answer := pyLower (pyStrip p1)
        if 1 ≤ rule_num ∧ rule_num ≤ (rules.length : Int) then
          match rules.get? (rule_num - 1).toNat with
          | none => none
          | some rule =>
            if answer = "yes".toList then
              some { rule_id := rule.id, rule_name := rule.rule_text,
                     rule_description := rule.explanation_text }
            else none
        else none

/-- LLMProcessor.parse_llm_response: split the stripped response on newlines
and run the line loop, appending each found violation in order. -/
def parse_llm_response (response : String) (rules : List Rule) : List Violation :=
  (pySplitChar '\n' (pyStrip response.toList)).foldl
    (fun violations line => violations ++ (parseLine rules line).toList) []

/-- Chunking of the fetched rules into groups of 3, as in
LLMProcessor.process_message: all_rules[i:i+3] for i in range(0, len, 3). -/
def ruleBatches : List Rule → List (List Rule)
  | [] => []
  | [a] => [[a]]
  | [a, b] => [[a, b]]
  | a :: b :: c :: rest => [a, b, c] :: ruleBatches rest

/-- The violation payload published to the message-rule-match queue by
LLMProcessor.process_message (exactly these four JSON keys). -/
structure ViolationMsg where
  rule_id : Int
  rule_name : String
  rule_description : String
  message_id : Int
  deriving DecidableEq, Repr

/-- LLMProcessor.process_message, with the external LLM abstracted as the
list of its per-batch answers: fetch active rules, chunk into batches of 3,
and for each batch parse its own answer and publish each violation with the
incoming message_id attached. -/
def process_message (db : List Rule) (chat_id : Int) (message_id : Int)
    (responses : List String) : List ViolationMsg :=
  let all_rules := get_active_rules db chat_id
  let batches := ruleBatches all_rules
  (batches.enum).flatMap (fun p =>
    (parse_llm_response (responses.getD p.1 "") p.2).map (fun v =>
      { rule_id := v.rule_id, rule_name := v.rule_name,
        rule_description := v.rule_description, message_id := message_id }))

/-! ## Aggregator (prepare-info-src/main.py)

The InfoPreparator keeps two process-local dicts keyed by the incoming
message_id (which is None when the JSON lacks the key, hence the
Option Int key type): message_data, a defaultdict of accumulated records,
and pending_confirmations, a defaultdict of sets of received kinds.
A defaultdict entry equal to the default is observationally identical to
an absent entry in this code (entries are only ever read keyed, never
iterated), so both dicts are modelled as total functions with the
default as initial value; deleting an entry resets it to the default. -/

/-- The three signal kinds the aggregator receives. -/
inductive SigKind where
  | images
  | transcribedAudio
  | text
  deriving DecidableEq, Repr

/-- Parsed JSON payload of one signal-queue message; data.get with a
default is modelled by the field (absent key = default for the flag and
list fields, None for message_id). -/
structure SigData where
  message_id : Option Int
  chat_id : Int
  has_video : Bool
  has_photo : Bool
  has_audio : Bool
  image_uuids : List String
  audio_uuids : List String
  text_payload : Option String
  transcribed_text : Option String
  deriving DecidableEq, Repr

/-- One accumulated message_data record.  The per-kind fields hold the last
stored event of that kind (a stored event dict is non-empty and hence
truthy, so Python truthiness of data of a kind is isSome here). -/
structure MsgRecord where
  images : Option SigData
  transcribed_audio : Option SigData
  text : Option SigData
  message_id : Option Int
  has_video : Bool
  has_photo : Bool
  has_audio : Bool
  image_uuids : List String
  audio_uuids : List String
  deriving DecidableEq, Repr

/-- The defaultdict default record. -/
def defaultRecord : MsgRecord :=
  { images := none, transcribed_audio := none, text := none,
    message_id := none, has_video := false, has_photo := false,
    has_audio := false, image_uuids := [], audio_uuids := [] }

/-- Aggregator state: the two keyed dicts. -/
@[ext]
structure AggState where
  message_data : Option Int → MsgRecord
  pending : Option Int → Finset SigKind

/-- The state at service start. -/
def initAgg : AggState :=
  { message_data := fun _ => defaultRecord, pending := fun _ => ∅ }

/-- The dict.update performed by each of the three handlers: the event is
stored under its kind key, and message_id, the three flags and the two
uuid lists are overwritten from the incoming event. -/
def mergeEvent (k : SigKind) (d : SigData) (r : MsgRecord) : MsgRecord :=
  { images := if k = SigKind.images then some d else r.images,
    transcribed_audio := if k = SigKind.transcribedAudio then some d else r.transcribed_audio,
    text := if k = SigKind.text then some d else r.text,
    message_id := d.message_id,
    has_video := d.has_video,
    has_photo := d.has_photo,
    has_audio := d.has_audio,
    image_uuids := d.image_uuids,
    audio_uuids := d.audio_uuids }

/-- The required_data set computed by check_and_send_info from the
accumulated record. -/
def requiredData (r : MsgRecord) : Finset SigKind :=
  (if r.has_video then {SigKind.images, SigKind.transcribedAudio} else ∅) ∪
  (if r.has_photo then {SigKind.images} else ∅) ∪
  (if r.has_audio then {SigKind.transcribedAudio} else ∅) ∪
  (if r.text.isSome then {SigKind.text} else ∅)

/-- The stored event of a given kind. -/
def storedEvent (r : MsgRecord) : SigKind → Option SigData
  | SigKind.images => r.images
  | SigKind.transcribedAudio => r.transcribed_audio
  | SigKind.text => r.text

/-- The element of required_data from which check_and_send_info reads
chat_id (next(iter(required_data))).  Python iterates the set in an
unspecified hash order; this model picks a fixed order.  No theorem below
depends on which element is picked. -/
def pickRequired (req : Finset SigKind) : Option SigKind :=
  if SigKind.images ∈ req then some SigKind.images
  else if SigKind.transcribedAudio ∈ req then some SigKind.transcribedAudio
  else if SigKind.text ∈ req then some SigKind.text
  else none

/-- The merged payload published to prompt.ready_info. -/
structure ReadyMsg where
  message_id : Option Int
  chat_id : Int
  has_video : Bool
  has_photo : Bool
  has_audio : Bool
  image_uuids : List String
  audio_uuids : List String
  transcribed_text : Option String
  text : Option String
  deriving DecidableEq, Repr

/-- InfoPreparator.check_and_send_info: if required_data is a subset of the
pending confirmations, publish the merged message and delete both dict
entries.  When required_data is empty the subset test passes but
next(iter(required_data)) raises StopIteration before anything is
published or deleted, so the state is returned unchanged. -/
def check_and_send_info (st : AggState) (mid : Option Int) : AggState × Option ReadyMsg :=
  let r := st.message_data mid
  let pend := st.pending mid
  let req := requiredData r
  if req ⊆ pend then
    match pickRequired req with
    | none => (st, none)
    | some k =>
      let ready : ReadyMsg :=
        { message_id := mid,
          chat_id := ((storedEvent r k).map SigData.chat_id).getD 0,
          has_video := r.has_video,
          has_photo := r.has_photo,
          has_audio := r.has_audio,
          image_uuids := r.image_uuids,
          audio_uuids := r.audio_uuids,
          transcribed_text := r.transcribed_audio.bind SigData.transcribed_text,
          text := r.text.bind SigData.text_payload }
      ({ message_data := Function.update st.message_data mid defaultRecord,
         pending := Function.update st.pending mid ∅ }, some ready)
  else (st, none)

/-- The state after the dict update and pending-set add that the three
queue handlers perform before calling check_and_send_info. -/
def mergedAgg (k : SigKind) (d : SigData) (st : AggState) : AggState :=
  { message_data := Function.update st.message_data d.message_id
      (mergeEvent k d (st.message_data d.message_id)),
    pending := Function.update st.pending d.message_id
      (insert k (st.pending d.message_id)) }

/-- Common body of the three queue handlers: store the event under its
kind, add the kind to the pending confirmations, then run
check_and_send_info for the incoming message_id. -/
def processSignal (k : SigKind) (d : SigData) (st : AggState) : AggState × Option ReadyMsg :=
  check_and_send_info (mergedAgg k d st) d.message_id

/-- InfoPreparator.process_images_message. -/
def process_images_message (d : SigData) (st : AggState) : AggState × Option ReadyMsg :=
  processSignal SigKind.images d st

/-- InfoPreparator.process_transcribed_audio_message. -/
def process_transcribed_audio_message (d : SigData) (st : AggState) : AggState × Option ReadyMsg :=
  processSignal SigKind.transcribedAudio d st

/-- InfoPreparator.process_text_message. -/
def process_text_message (d : SigData) (st : AggState) : AggState × Option ReadyMsg :=
  processSignal SigKind.text d st

/-- A delivery trace: each element is one consumed queue message, tagged
with the queue (kind) it arrived on. -/
abbrev AggEvent := SigKind × SigData

/-- Run the aggregator from a state over a delivery trace, collecting the
published ready messages in order. -/
def runAggFrom (st : AggState) : List AggEvent → AggState × List ReadyMsg
  | [] => (st, [])
  | e :: rest =>
    let step := processSignal e.1 e.2 st
    let tail := runAggFrom step.1 rest
    (tail.1, step.2.toList ++ tail.2)

/-- Run the aggregator from the initial state. -/
def runAgg (evs : List AggEvent) : AggState × List ReadyMsg :=
  runAggFrom initAgg evs

/-- The kinds delivered for a given message id within a trace. -/
def deliveredKinds : List AggEvent → Int → Finset SigKind
  | [], _ => ∅
  | e :: rest, m =>
    if e.2.message_id = some m then insert e.1 (deliveredKinds rest m)
    else deliveredKinds rest m

/-! ## Decision Dispatcher (decider-src/main.py)

RuleDecider.process_rule_match is modelled as a function from the database
tables and the consumed violation payload to the ordered list of
chat-platform calls it performs.  Platform calls are modelled as
succeeding; the one call that cannot succeed on pipeline-produced input is
ban_chat_member, whose argument data of key user_id is read from a payload
that the evaluator publishes without that key: the KeyError is caught by
the enclosing except block after delete_message has already run, which the
model renders as emitting no ban effect. -/

/-- Row of the chats table (the columns the decider joins). -/
structure ChatRow where
  id : Int
  title : String
  deriving DecidableEq, Repr

/-- Row of the chat_moderators table. -/
structure ModRow where
  chat_id : Int
  user_id : Int
  activated : Bool
  deriving DecidableEq, Repr

/-- Row of the rule_violation_notification_policies table:
(moderator_id, policy), policy one of NOTIFY_BAN, NOT_NOTIFY_BAN,
NOTIFY_NOTIFICATION, NOT_NOTIFY_NOTIFICATION. -/
structure PolicyRow where
  moderator_id : Int
  policy : String
  deriving DecidableEq, Repr

/-- The payload the decider reads from the message-rule-match queue.
data of key user_id is accessed with a plain index, so a payload without
the key is modelled with user_id = none. -/
structure DeciderMsg where
  rule_id : Int
  message_id : Int
  user_id : Option Int
  deriving DecidableEq, Repr

/-- The violation payload as published by the evaluator, re-read by the
decider: only the four published keys exist, so user_id is absent. -/
def toDeciderMsg (v : ViolationMsg) : DeciderMsg :=
  { rule_id := v.rule_id, message_id := v.message_id, user_id := none }

/-- The inline-keyboard control attached to a moderator notification. -/
inductive Control where
  | banButton
  | unbanButton
  deriving DecidableEq, Repr

/-- One chat-platform call performed by the decider. -/
inductive Effect where
  | forward (from_chat : Int) (to_user : Int) (msg : Int)
  | notify (to_user : Int) (ctrl : Control)
  | deleteMessage (chat : Int) (msg : Int)
  | banMember (chat : Int) (user : Int)
  deriving DecidableEq, Repr

/-- RuleDecider.get_rule_info: rules JOIN chats ON r.chat_id = c.id
WHERE r.id = $1. -/
def get_rule_info (rules : List Rule) (chats : List ChatRow) (rule_id : Int) :
    Option (Rule × ChatRow) :=
  (rules.find? (fun r => r.id = rule_id)).bind (fun r =>
    (chats.find? (fun c => c.id = r.chat_id)).map (fun c => (r, c)))

/-- RuleDecider.get_moderators_for_chat: SELECT DISTINCT user_id ... WHERE
chat_id = $1 AND activated = TRUE.  DISTINCT is List.dedup; the SQL row
order is unspecified and the table order stands in for it. -/
def get_moderators_for_chat (mods : List ModRow) (chat_id : Int) : List Int :=
  ((mods.filter (fun m => m.chat_id = chat_id && m.activated)).map ModRow.user_id).dedup

/-- RuleDecider.get_notification_policy: fetchval of SELECT policy ...
WHERE moderator_id = $1 takes the first matching row (or None), and the
moderator is notified iff there is no row or that single value is
NOTIFY_BAN or NOTIFY_NOTIFICATION.  The rule type plays no part. -/
def get_notification_policy (policies : List PolicyRow) (user_id : Int) : Bool :=
  match (policies.filter (fun p => p.moderator_id = user_id)).head? with
  | none => true
  | some p => p.policy = "NOTIFY_BAN" || p.policy = "NOTIFY_NOTIFICATION"

/-- The per-moderator body of the notification loop of
RuleDecider.process_rule_match: skip if the policy check fails; otherwise
forward the offending message (best effort), send the rule text with the
action control (a Ban button for NOTIFY rules, an Unban button otherwise),
and for BAN rules delete the offending message and then attempt
ban_chat_member, which only happens when the payload carries user_id. -/
def notifyModerator (r : Rule) (msg : DeciderMsg) (policies : List PolicyRow)
    (uid : Int) : List Effect :=
  if get_notification_policy policies uid then
    let ctrl := if r.type = "NOTIFY" then Control.banButton else Control.unbanButton
    [Effect.forward r.chat_id uid msg.message_id, Effect.notify uid ctrl] ++
    (if r.type = "BAN" then
      Effect.deleteMessage r.chat_id msg.message_id ::
      (match msg.user_id with
       | some u => [Effect.banMember r.chat_id u]
       | none => [])
     else [])
  else []

/-- RuleDecider.process_rule_match: load the rule, load the activated
moderators (dropping the violation if there are none), then run the
notification loop. -/
def process_rule_match (rules : List Rule) (chats : List ChatRow)
    (mods : List ModRow) (policies : List PolicyRow) (msg : DeciderMsg) :
    List Effect :=
  match get_rule_info rules chats msg.rule_id with
  | none => []
  | some (r, _c) =>
    let ms := get_moderators_for_chat mods r.chat_id
    if ms.isEmpty then []
    else ms.flatMap (notifyModerator r msg policies)

/-! ## Violation actions (src/bot.py, src/db.py)

TelegramBot.handle_violation_action with the Database methods it calls.
The decision table is a list of rows in insertion order; add_decision
appends with a fresh serial id, update_decision rewrites the decision
column of the row whose primary key equals the given id.  The chat
platform ban/unban call is abstracted by a success flag; on failure the
handler returns before re-presenting a control. -/

/-- Row of the rule_violations table (the columns the handler reads). -/
structure ViolationRow where
  id : Int
  chat_id : Int
  violator_id : Int
  deriving DecidableEq, Repr

/-- Row of the rule_violation_decision table. -/
structure DecisionRow where
  id : Int
  rule_violation_id : Int
  moderator_id : Int
  decision : String
  deriving DecidableEq, Repr

/-- The slice of the relational store the handler touches. -/
structure BotDb where
  violations : List ViolationRow
  decisions : List DecisionRow
  next_decision_id : Int
  deriving DecidableEq, Repr

/-- Database.get_rule_violation (existence lookup by id). -/
def get_rule_violation (db : BotDb) (violation_id : Int) : Option ViolationRow :=
  db.violations.find? (fun v => v.id = violation_id)

/-- Database.update_decision: UPDATE rule_violation_decision SET
decision = $2 WHERE id = $1. -/
def update_decision (db : BotDb) (decision_id : Int) (decision : String) : BotDb :=
  { db with decisions := db.decisions.map (fun row =>
      if row.id = decision_id then { row with decision := decision } else row) }

/-- Database.add_decision: INSERT INTO rule_violation_decision ...
RETURNING id; a serial id is assigned and the row appended. -/
def add_decision (db : BotDb) (rule_violation_id : Int) (moderator_id : Int)
    (decision : String) : BotDb :=
  { db with
    decisions := db.decisions ++
      [{ id := db.next_decision_id, rule_violation_id := rule_violation_id,
         moderator_id := moderator_id, decision := decision }],
    next_decision_id := db.next_decision_id + 1 }

/-- TelegramBot.handle_violation_action for callback data
violation_action:violation_id:action, pressed by the given moderator.
Steps in source order: look up the violation (answering and returning if
absent); update_decision (called with the violation id in the decision-id
position, as in the source); add_decision; then the ban/unban platform
call, whose failure makes the handler return before editing the message,
so no new control is presented; on success the opposite control is
presented. -/
def handle_violation_action (db : BotDb) (violation_id : Int) (action : String)
    (moderator_id : Int) (platform_ok : Bool) : BotDb × Option Control :=
  match get_rule_violation db violation_id with
  | none => (db, none)
  | some _v =>
    let db1 := update_decision db violation_id action
    let db2 := add_decision db1 violation_id moderator_id action
    if (action = "BAN" || action = "UNBAN") && !platform_ok then (db2, none)
    else
      (db2, some (if action = "BAN" then Control.unbanButton else Control.banButton))

/-- The current decision for a violation: the latest recorded row for it. -/
def currentDecision (db : BotDb) (violation_id : Int) : Option String :=
  ((db.decisions.filter (fun r => r.rule_violation_id = violation_id)).getLast?).map
    DecisionRow.decision

/-! ## Claim-side definitions and concrete sample data -/

/-- Follows the claim wording, not the source: a response line of the form
digits, then a dot and a space, then a word, whose number is within
1..batchSize and whose word equals yes case-insensitively.  Used to compare
the claimed line format against what parse_llm_response accepts. -/
def claimYesLine (line : List Char) (batchSize : Nat) : Bool :=
  let ds := line.takeWhile Char.isDigit
  let rest := line.drop ds.length
  (!ds.isEmpty) &&
  (match rest with
   | '.' :: ' ' :: w =>
     (!w.isEmpty) && (pyLower w == "yes".toList) &&
     decide (1 ≤ pyDigitsVal ds ∧ pyDigitsVal ds ≤ batchSize)
   | _ => false)

/-- Per-line violation criterion as the amended claim states it: the line,
after stripping, splits at the first dot into a Python-int-parsable index n
(so an optional sign and surrounding whitespace are also accepted) with
1 ≤ n ≤ batch size, and a remainder equal to yes case-insensitively after
stripping; such a line yields the violation for the rule at batch position
n, and every other line yields nothing. -/
def amendedLineViolation (rules : List Rule) (line : List Char) : Option Violation :=
  match pySplitFirst '.' (pyStrip line) with
  | none => none
  | some (p0, p1) =>
    match pythonInt p0 with
    | none => none
    | some n =>
      if 1 ≤ n ∧ n ≤ (rules.length : Int) ∧ pyLower (pyStrip p1) = "yes".toList then
        (rules.get? (n - 1).toNat).map (fun rule =>
          { rule_id := rule.id, rule_name := rule.rule_text,
            rule_description := rule.explanation_text })
      else none

/-- An activated NOTIFY rule of chat 1 with the given id. -/
def sampleRule (i : Int) : Rule :=
  { id := i, chat_id := 1, rule_text := "text", explanation_text := "desc",
    type := "NOTIFY", activated := true }

/-- A rules table with five active rules for chat 1. -/
def fiveRuleDb : List Rule :=
  [sampleRule 1, sampleRule 2, sampleRule 3, sampleRule 4, sampleRule 5]

/-- A text-only signal payload for message 1 (non-empty text, no media). -/
def textEvent1 : SigData :=
  { message_id := some 1, chat_id := 5, has_video := false, has_photo := false,
    has_audio := false, image_uuids := [], audio_uuids := [],
    text_payload := some "hello", transcribed_text := none }

/-- The ready message the aggregator publishes for textEvent1. -/
def readyText1 : ReadyMsg :=
  { message_id := some 1, chat_id := 5, has_video := false, has_photo := false,
    has_audio := false, image_uuids := [], audio_uuids := [],
    transcribed_text := none, text := some "hello" }

/-- The images signal of a video message 2 (has_video set, one frame id). -/
def videoImagesEvent : SigData :=
  { message_id := some 2, chat_id := 5, has_video := true, has_photo := false,
    has_audio := false, image_uuids := ["img-a"], audio_uuids := [],
    text_payload := none, transcribed_text := none }

/-- The transcribed-audio signal of video message 2, flags intact. -/
def videoAudioEvent : SigData :=
  { message_id := some 2, chat_id := 5, has_video := true, has_photo := false,
    has_audio := false, image_uuids := [], audio_uuids := ["aud-a"],
    text_payload := none, transcribed_text := some "spoken" }

/-- A transcribed-audio signal for message 2 that under-reports the flags
(has_video false, empty asset lists). -/
def underReportingAudioEvent : SigData :=
  { message_id := some 2, chat_id := 5, has_video := false, has_photo := false,
    has_audio := false, image_uuids := [], audio_uuids := [],
    text_payload := none, transcribed_text := some "spoken" }

/-- A text signal whose JSON lacks the message_id key. -/
def orphanTextEvent : SigData :=
  { message_id := none, chat_id := 9, has_video := false, has_photo := false,
    has_audio := false, image_uuids := [], audio_uuids := [],
    text_payload := some "hi", transcribed_text := none }

/-- The both-signals delivery trace for video message 2. -/
def videoTrace : List AggEvent :=
  [(SigKind.images, videoImagesEvent), (SigKind.transcribedAudio, videoAudioEvent)]

/-- The ready message the aggregator publishes once both signals of video
message 2 arrived. -/
def readyVideo2 : ReadyMsg :=
  { message_id := some 2, chat_id := 5, has_video := true, has_photo := false,
    has_audio := false, image_uuids := [], audio_uuids := ["aud-a"],
    transcribed_text := some "spoken", text := none }

/-- An activated NOTIFY rule for the decider tests. -/
def notifyRule : Rule :=
  { id := 10, chat_id := 1, rule_text := "no spam", explanation_text := "spam",
    type := "NOTIFY", activated := true }

/-- An activated BAN rule for the decider tests. -/
def banRule : Rule :=
  { id := 11, chat_id := 1, rule_text := "no slurs", explanation_text := "slurs",
    type := "BAN", activated := true }

/-- A chats table with the one chat the sample rules belong to. -/
def oneChat : List ChatRow := [{ id := 1, title := "main" }]

/-- A moderators table with one activated moderator (user 7) of chat 1. -/
def oneModerator : List ModRow := [{ chat_id := 1, user_id := 7, activated := true }]

/-- Moderator 7 opted out of the BAN notification category (the single
policy row NOT_NOTIFY_BAN). -/
def banOptOut : List PolicyRow := [{ moderator_id := 7, policy := "NOT_NOTIFY_BAN" }]

/-- A violation payload for the NOTIFY rule, as the decider reads it. -/
def notifyViolationMsg : DeciderMsg := { rule_id := 10, message_id := 55, user_id := none }

/-- A bot database with one violation (id 1) whose current decision is BAN. -/
def botDb0 : BotDb :=
  { violations := [{ id := 1, chat_id := 5, violator_id := 9 }],
    decisions := [{ id := 1, rule_violation_id := 1, moderator_id := 7, decision := "BAN" }],
    next_decision_id := 2 }

/-! ## Helper lemmas -/

/-- The violation accumulator of parse_llm_response is a filterMap. -/
theorem foldl_parseLine_eq_filterMap (rules : List Rule) (L : List (List Char))
    (acc : List Violation) :
    L.foldl (fun violations line => violations ++ (parseLine rules line).toList) acc =
      acc ++ L.filterMap (parseLine rules) := by
  induction L generalizing acc with
  | nil => simp
  | cons l L ih =>
    cases h : parseLine rules l <;>
      simp [List.foldl_cons, h, ih, List.filterMap_cons]

/-- The line loop body equals the flattened per-line criterion of the
amended claim. -/
theorem parseLine_eq_amended (rules : List Rule) (line : List Char) :
    parseLine rules line = amendedLineViolation rules line := by
  unfold parseLine amendedLineViolation
  by_cases h0 : pyStrip line = []
  · simp [h0, pySplitFirst]
  · simp only [h0, if_false]
    cases hsp : pySplitFirst '.' (pyStrip line) with
    | none => simp
    | some p =>
      obtain ⟨p0, p1⟩ := p
      cases hint : pythonInt p0 with
      | none => simp [hint]
      | some n =>
        simp only [hint]
        by_cases hrange : 1 ≤ n ∧ n ≤ (rules.length : Int)
        · by_cases hyes : pyLower (pyStrip p1) = "yes".toList
          · cases hget : rules.get? (n - 1).toNat <;>
              simp [hint, hrange, hrange.1, hrange.2, hyes, hget]
          · cases hget : rules.get? (n - 1).toNat <;>
              simp [hint, hrange, hrange.1, hrange.2, hyes, hget]
        · rw [if_neg hrange, if_neg]
          intro hc
          exact hrange ⟨hc.1, hc.2.1⟩

/-- A call of check_and_send_info that publishes nothing leaves the state
untouched. -/
theorem check_and_send_info_no_emit (st : AggState) (mid : Option Int)
    (h : (check_and_send_info st mid).2 = none) :
    (check_and_send_info st mid).1 = st := by
  unfold check_and_send_info at h ⊢
  by_cases hsub : requiredData (st.message_data mid) ⊆ st.pending mid
  · cases hpick : pickRequired (requiredData (st.message_data mid)) with
    | none => simp [hsub, hpick]
    | some k => simp [hsub, hpick] at h
  · simp [hsub]

/-- Storing the same event twice in a row stores it once. -/
theorem mergeEvent_idem (k : SigKind) (d : SigData) (r : MsgRecord) :
    mergeEvent k d (mergeEvent k d r) = mergeEvent k d r := by
  cases k <;> simp [mergeEvent]

/-- The handler-side dict update is idempotent. -/
theorem mergedAgg_idem (k : SigKind) (d : SigData) (st : AggState) :
    mergedAgg k d (mergedAgg k d st) = mergedAgg k d st := by
  unfold mergedAgg
  simp only [Function.update_same, Function.update_idem, mergeEvent_idem,
    Finset.insert_idem]

/-- check_and_send_info only ever touches the dict entries of its key. -/
theorem check_and_send_info_other_keys (st : AggState) (mid : Option Int)
    (x : Option Int) (hx : x ≠ mid) :
    (check_and_send_info st mid).1.message_data x = st.message_data x ∧
    (check_and_send_info st mid).1.pending x = st.pending x := by
  unfold check_and_send_info
  by_cases hsub : requiredData (st.message_data mid) ⊆ st.pending mid
  · cases hpick : pickRequired (requiredData (st.message_data mid)) with
    | none => simp [hsub, hpick]
    | some kk => simp [hsub, hpick, Function.update_noteq hx]
  · simp [hsub]

/-- A published ready message carries the key check_and_send_info ran on. -/
theorem check_and_send_info_emit_mid (st : AggState) (mid : Option Int)
    (r : ReadyMsg) (h : (check_and_send_info st mid).2 = some r) :
    r.message_id = mid := by
  unfold check_and_send_info at h
  by_cases hsub : requiredData (st.message_data mid) ⊆ st.pending mid
  · cases hpick : pickRequired (requiredData (st.message_data mid)) with
    | none => simp [hsub, hpick] at h
    | some kk =>
      simp only [hsub, if_true, hpick] at h
      obtain ⟨rfl⟩ : some _ = some r := h
      rfl
  · simp [hsub] at h

/-- A publishing check had its required set inside the pending set. -/
theorem check_and_send_info_emit_sub (st : AggState) (mid : Option Int)
    (r : ReadyMsg) (h : (check_and_send_info st mid).2 = some r) :
    requiredData (st.message_data mid) ⊆ st.pending mid := by
  by_cases hsub : requiredData (st.message_data mid) ⊆ st.pending mid
  · exact hsub
  · exfalso
    unfold check_and_send_info at h
    simp [hsub] at h

/-- check_and_send_info never grows a pending set: it keeps it or empties
the one of its key. -/
theorem check_and_send_info_pending_sub (st : AggState) (mid : Option Int)
    (x : Option Int) :
    (check_and_send_info st mid).1.pending x ⊆ st.pending x := by
  unfold check_and_send_info
  by_cases hsub : requiredData (st.message_data mid) ⊆ st.pending mid
  · cases hpick : pickRequired (requiredData (st.message_data mid)) with
    | none => simp [hsub, hpick]
    | some kk =>
      simp only [hsub, if_true, hpick]
      by_cases hx : x = mid
      · subst hx; simp
      · simp [Function.update_noteq hx]
  · simp [hsub]

/-- The dict components of the handler-side update. -/
theorem mergedAgg_components (k : SigKind) (d : SigData) (st : AggState)
    (x : Option Int) :
    (mergedAgg k d st).message_data x =
      (if x = d.message_id then mergeEvent k d (st.message_data d.message_id)
       else st.message_data x) ∧
    (mergedAgg k d st).pending x =
      (if x = d.message_id then insert k (st.pending d.message_id)
       else st.pending x) := by
  unfold mergedAgg
  by_cases hx : x = d.message_id
  · subst hx; simp
  · simp [Function.update_noteq hx, hx]

/-- A processSignal step only touches the dict entries of the incoming
message_id. -/
theorem processSignal_other_keys (k : SigKind) (d : SigData) (st : AggState)
    (x : Option Int) (hx : x ≠ d.message_id) :
    (processSignal k d st).1.message_data x = st.message_data x ∧
    (processSignal k d st).1.pending x = st.pending x := by
  have h1 := check_and_send_info_other_keys (mergedAgg k d st) d.message_id x hx
  have h2 := mergedAgg_components k d st x
  rw [if_neg hx, if_neg hx] at h2
  exact ⟨h1.1.trans h2.1, h1.2.trans h2.2⟩

/-- A published ready message carries the message_id of the event whose
processing published it. -/
theorem processSignal_emit_message_id (k : SigKind) (d : SigData) (st : AggState)
    (r : ReadyMsg) (h : (processSignal k d st).2 = some r) :
    r.message_id = d.message_id :=
  check_and_send_info_emit_mid (mergedAgg k d st) d.message_id r h

/-- A publishing step had its required set inside the updated pending set. -/
theorem processSignal_emit_requires (k : SigKind) (d : SigData) (st : AggState)
    (r : ReadyMsg) (h : (processSignal k d st).2 = some r) :
    requiredData (mergeEvent k d (st.message_data d.message_id)) ⊆
      insert k (st.pending d.message_id) := by
  have hsub := check_and_send_info_emit_sub (mergedAgg k d st) d.message_id r h
  have hc := mergedAgg_components k d st d.message_id
  rw [if_pos rfl, if_pos rfl] at hc
  rwa [hc.1, hc.2] at hsub

/-- After a processSignal step the pending set of any key is inside the
pending set the update produced (the publishing branch empties it). -/
theorem processSignal_pending_sub (k : SigKind) (d : SigData) (st : AggState)
    (x : Option Int) :
    (processSignal k d st).1.pending x ⊆
      (if x = d.message_id then insert k (st.pending d.message_id)
       else st.pending x) := by
  have h1 := check_and_send_info_pending_sub (mergedAgg k d st) d.message_id x
  have h2 := (mergedAgg_components k d st x).2
  rw [h2] at h1
  exact h1

/-- A record whose has_video flag is set requires both media kinds. -/
theorem requiredData_of_video (r : MsgRecord) (h : r.has_video = true) :
    SigKind.images ∈ requiredData r ∧ SigKind.transcribedAudio ∈ requiredData r := by
  simp [requiredData, h]

/-- Invariant run of the video gate: when every event of the trace that is
keyed to message m carries has_video, a ready message for m can only be
published once both media kinds are inside the over-approximation D of the
pending set joined with the kinds delivered along the trace. -/
theorem runAggFrom_video_gate (m : Int) (evs : List AggEvent) :
    ∀ (st : AggState) (D : Finset SigKind),
      st.pending (some m) ⊆ D →
      (∀ e ∈ evs, e.2.message_id = some m → e.2.has_video = true) →
      ∀ r ∈ (runAggFrom st evs).2, r.message_id = some m →
        SigKind.images ∈ D ∪ deliveredKinds evs m ∧
        SigKind.transcribedAudio ∈ D ∪ deliveredKinds evs m := by
  induction evs with
  | nil =>
    intro st D _ _ r hr
    simp [runAggFrom] at hr
  | cons e rest ih =>
    intro st D hD hv r hr hm
    simp only [runAggFrom, List.mem_append] at hr
    rcases hr with hstep | htail
    · have hsome : (processSignal e.1 e.2 st).2 = some r := by
        cases hout : (processSignal e.1 e.2 st).2 with
        | none => rw [hout] at hstep; simp at hstep
        | some r2 =>
          rw [hout] at hstep
          simp at hstep
          rw [hstep]
      have hmid : e.2.message_id = some m := by
        rw [← processSignal_emit_message_id e.1 e.2 st r hsome]
        exact hm
      have hvid : e.2.has_video = true := hv e (by simp) hmid
      have hreq := processSignal_emit_requires e.1 e.2 st r hsome
      have hboth := requiredData_of_video
        (mergeEvent e.1 e.2 (st.message_data e.2.message_id))
        (by simp [mergeEvent, hvid])
      have h1 := hreq hboth.1
      have h2 := hreq hboth.2
      rw [hmid] at h1 h2
      have hdel : deliveredKinds (e :: rest) m = insert e.1 (deliveredKinds rest m) := by
        simp [deliveredKinds, hmid]
      rw [hdel]
      constructor
      · rcases Finset.mem_insert.mp h1 with h | h
        · exact Finset.mem_union_right _ (h ▸ Finset.mem_insert_self _ _)
        · exact Finset.mem_union_left _ (hD h)
      · rcases Finset.mem_insert.mp h2 with h | h
        · exact Finset.mem_union_right _ (h ▸ Finset.mem_insert_self _ _)
        · exact Finset.mem_union_left _ (hD h)
    · by_cases hmid : e.2.message_id = some m
      · have hsub : (processSignal e.1 e.2 st).1.pending (some m) ⊆ insert e.1 D := by
          have h := processSignal_pending_sub e.1 e.2 st (some m)
          rw [if_pos hmid.symm, hmid] at h
          exact h.trans (Finset.insert_subset_insert _ hD)
        have hres := ih (processSignal e.1 e.2 st).1 (insert e.1 D) hsub
          (fun e2 he2 => hv e2 (List.mem_cons_of_mem _ he2)) r htail hm
        have hdel : deliveredKinds (e :: rest) m = insert e.1 (deliveredKinds rest m) := by
          simp [deliveredKinds, hmid]
        rw [hdel]
        constructor
        · rcases Finset.mem_union.mp hres.1 with h | h
          · rcases Finset.mem_insert.mp h with h | h
            · exact Finset.mem_union_right _ (h ▸ Finset.mem_insert_self _ _)
            · exact Finset.mem_union_left _ h
          · exact Finset.mem_union_right _ (Finset.mem_insert_of_mem h)
        · rcases Finset.mem_union.mp hres.2 with h | h
          · rcases Finset.mem_insert.mp h with h | h
            · exact Finset.mem_union_right _ (h ▸ Finset.mem_insert_self _ _)
            · exact Finset.mem_union_left _ h
          · exact Finset.mem_union_right _ (Finset.mem_insert_of_mem h)
      · have hsub : (processSignal e.1 e.2 st).1.pending (some m) ⊆ D := by
          have h := processSignal_pending_sub e.1 e.2 st (some m)
          rw [if_neg (fun hc => hmid hc.symm)] at h
          exact h.trans hD
        have hres := ih (processSignal e.1 e.2 st).1 D hsub
          (fun e2 he2 => hv e2 (List.mem_cons_of_mem _ he2)) r htail hm
        have hdel : deliveredKinds (e :: rest) m = deliveredKinds rest m := by
          simp [deliveredKinds, hmid]
        rw [hdel]
        exact hres

/-- Membership of a notification effect in one moderator loop iteration:
it requires exactly the policy check on that moderator, and the control is
fixed by the rule type alone. -/
theorem notify_mem_notifyModerator (r : Rule) (msg : DeciderMsg)
    (policies : List PolicyRow) (uid2 uid : Int) (ctrl : Control) :
    Effect.notify uid ctrl ∈ notifyModerator r msg policies uid2 ↔
      uid = uid2 ∧ get_notification_policy policies uid2 = true ∧
      ctrl = (if r.type = "NOTIFY" then Control.banButton else Control.unbanButton) := by
  unfold notifyModerator
  by_cases hpol : get_notification_policy policies uid2
  · by_cases hban : r.type = "BAN"
    · cases msg.user_id <;> simp [hpol, hban]
    · simp [hpol, hban]
  · simp [hpol]

/-- The last element of a list with an appended singleton. -/
theorem getLast?_append_singleton {α : Type} (l : List α) (a : α) :
    (l ++ [a]).getLast? = some a := by
  induction l with
  | nil => rfl
  | cons x xs ih =>
    cases xs with
    | nil => rfl
    | cons y ys =>
      simp only [List.cons_append] at ih ⊢
      rw [List.getLast?_cons_cons]
      exact ih

/-- After add_decision the current decision of that violation is the
added one. -/
theorem currentDecision_add (db : BotDb) (vid moderator : Int) (a : String) :
    currentDecision (add_decision db vid moderator a) vid = some a := by
  unfold currentDecision add_decision
  simp [List.filter_append, getLast?_append_singleton]

/-! ## Claim theorems -/

/-- C1: the claim states that all active rules of a chat are evaluated,
partitioned into batches of 3, so that 5 active rules form two batches.
The code disagrees with itself: process_message splits the fetched rules
into batches of 3 and loops over them, but get_active_rules caps the SQL
query with LIMIT 3, so with 5 active rules only the 3 lowest-id rules are
fetched and exactly one batch is ever evaluated; the claimed second batch
of the remaining two rules never runs.  This theorem evaluates the code at
the failing input: the first-batch answer does produce exactly the two
violations for rules 1 and 3, but the batch list has a single element and
rules 4 and 5 appear in no batch. -/
theorem evaluator_fetch_cap_yields_single_batch :
    get_active_rules fiveRuleDb 1 = [sampleRule 1, sampleRule 2, sampleRule 3] ∧
    ruleBatches (get_active_rules fiveRuleDb 1) =
      [[sampleRule 1, sampleRule 2, sampleRule 3]] ∧
    process_message fiveRuleDb 1 100 ["1. Yes\n2. No\n3. Yes", "1. Yes"] =
      [{ rule_id := 1, rule_name := "text", rule_description := "desc", message_id := 100 },
       { rule_id := 3, rule_name := "text", rule_description := "desc", message_id := 100 }] :=
  ⟨by decide, by decide, by decide⟩

/-- C2 counterexample: the response line of a plus sign, the digit 1, a dot
and the word yes is not of the claimed form digits dot word, yet the parser
produces a violation for it, because Python int accepts a signed index.
This refutes the claimed exactness of the line format. -/
theorem parser_accepts_plus_signed_index :
    parse_llm_response "+1. yes" [sampleRule 1] =
      [{ rule_id := 1, rule_name := "text", rule_description := "desc" }] ∧
    claimYesLine "+1. yes".toList 1 = false := by
  exact ⟨by decide, by decide⟩

/-- C2 (amended): the parser yields one violation, referencing the rule at
batch position n, exactly for each response line that splits at its first
dot into a Python-int-parsable number n (an optional sign and surrounding
whitespace are therefore also accepted) within 1..batch size and a
remainder equal to yes case-insensitively after stripping; every other
line contributes nothing, no line aborts the batch, and the parser is a
total function of the response. -/
theorem parse_llm_response_line_characterization (response : String) (rules : List Rule) :
    parse_llm_response response rules =
      (pySplitChar '\n' (pyStrip response.toList)).filterMap (amendedLineViolation rules) := by
  unfold parse_llm_response
  rw [foldl_parseLine_eq_filterMap, List.nil_append]
  congr 1
  funext l
  exact parseLine_eq_amended rules l

/-- C3 counterexample: a text-only message completes on its first Text
signal, the pending aggregation is evicted, and re-delivering the identical
signal re-creates the aggregation and publishes a second, duplicate
ReadyEvent for the same message_id, refuting the claimed idempotence under
redelivery after eviction. -/
theorem redelivery_after_eviction_duplicates_ready :
    (runAgg [(SigKind.text, textEvent1), (SigKind.text, textEvent1)]).2 =
      [readyText1, readyText1] := by decide

/-- C3 (amended): within the lifetime of one pending aggregation the
aggregator is idempotent: a delivery that does not complete the message
leaves the state so that re-delivering the identical signal changes
nothing and emits nothing; but once the message completes, the emitting
step evicts the aggregation, and a later identical redelivery starts a
fresh aggregation that can emit a duplicate ReadyEvent. -/
theorem signal_redelivery_idempotent_before_completion
    (st : AggState) (k : SigKind) (d : SigData)
    (h : (processSignal k d st).2 = none) :
    processSignal k d (processSignal k d st).1 = ((processSignal k d st).1, none) := by
  have hfst : (processSignal k d st).1 = mergedAgg k d st :=
    check_and_send_info_no_emit (mergedAgg k d st) d.message_id h
  rw [hfst]
  show check_and_send_info (mergedAgg k d (mergedAgg k d st)) d.message_id =
    (mergedAgg k d st, none)
  rw [mergedAgg_idem]
  show processSignal k d st = (mergedAgg k d st, none)
  rw [Prod.ext_iff]
  exact ⟨hfst, h⟩

/-- Witness for C3 at a concrete input: the first images signal of a video
message does not complete it, and an immediate identical redelivery is a
no-op. -/
theorem signal_redelivery_idempotent_before_completion_witness :
    processSignal SigKind.images videoImagesEvent
        (processSignal SigKind.images videoImagesEvent initAgg).1 =
      ((processSignal SigKind.images videoImagesEvent initAgg).1, none) :=
  signal_redelivery_idempotent_before_completion initAgg SigKind.images
    videoImagesEvent (by decide)

/-- C4 counterexample: moderator 7 has the single policy row
NOT_NOTIFY_BAN, an opt-out of the BAN category only.  The claim says such
a moderator still receives notifications for a NOTIFY-type violation, but
the decider consults one policy value per moderator regardless of the rule
type, so the moderator receives nothing at all for the NOTIFY rule. -/
theorem ban_optout_suppresses_notify_rule_notification :
    process_rule_match [notifyRule] oneChat oneModerator banOptOut notifyViolationMsg = [] ∧
    get_notification_policy banOptOut 7 = false := by
  exact ⟨by decide, by decide⟩

/-- C4 (amended): the notification decision is per-moderator and
independent of the rule type: a moderator is notified exactly when the
rule resolves, the moderator is an activated moderator of its chat, and
the single fetched policy value allows it (no policy row means notify,
a row allows only when it is NOTIFY_BAN or NOTIFY_NOTIFICATION, so any
NOT_NOTIFY row of either category suppresses violations of every type);
the rule type only selects the control attached to the notification. -/
theorem notification_decision_rule_type_independent
    (rules : List Rule) (chats : List ChatRow) (mods : List ModRow)
    (policies : List PolicyRow) (msg : DeciderMsg) (r : Rule) (c : ChatRow)
    (uid : Int) (ctrl : Control)
    (hrule : get_rule_info rules chats msg.rule_id = some (r, c)) :
    Effect.notify uid ctrl ∈ process_rule_match rules chats mods policies msg ↔
      uid ∈ get_moderators_for_chat mods r.chat_id ∧
      get_notification_policy policies uid = true ∧
      ctrl = (if r.type = "NOTIFY" then Control.banButton else Control.unbanButton) := by
  unfold process_rule_match
  rw [hrule]
  dsimp only
  by_cases hemp : (get_moderators_for_chat mods r.chat_id).isEmpty = true
  · rw [if_pos hemp]
    rw [List.isEmpty_iff] at hemp
    simp [hemp]
  · rw [if_neg hemp, List.mem_flatMap]
    constructor
    · rintro ⟨u2, hu2, hmem⟩
      obtain ⟨rfl, hpol, hctrl⟩ :=
        (notify_mem_notifyModerator r msg policies u2 uid ctrl).mp hmem
      exact ⟨hu2, hpol, hctrl⟩
    · rintro ⟨hu, hpol, hctrl⟩
      exact ⟨uid, hu,
        (notify_mem_notifyModerator r msg policies uid uid ctrl).mpr ⟨rfl, hpol, hctrl⟩⟩

/-- Witness for C4 at a concrete input: with no policy rows, moderator 7 is
notified of the NOTIFY-rule violation with a Ban control. -/
theorem notification_decision_rule_type_independent_witness :
    Effect.notify 7 Control.banButton ∈
        process_rule_match [notifyRule] oneChat oneModerator [] notifyViolationMsg ↔
      7 ∈ get_moderators_for_chat oneModerator notifyRule.chat_id ∧
      get_notification_policy ([] : List PolicyRow) 7 = true ∧
      Control.banButton =
        (if notifyRule.type = "NOTIFY" then Control.banButton else Control.unbanButton) :=
  notification_decision_rule_type_independent [notifyRule] oneChat oneModerator []
    notifyViolationMsg notifyRule { id := 1, title := "main" } 7 Control.banButton
    (by decide)

/-- C5: the claim states that dispatching a BAN-rule violation deletes the
offending message and restricts its author.  The decider does run its
enforcement block synchronously inside dispatch, and the deletion happens,
but the ban call reads the user_id key of the consumed payload, and the
evaluator publishes violations with only the four keys rule_id, rule_name,
rule_description and message_id: the resulting KeyError is caught by the
enclosing per-moderator handler after the deletion already ran, so the
author is never restricted on any pipeline-produced violation.  This
theorem evaluates the full path at the failing input: the evaluator output
for a BAN rule, dispatched to one default-policy moderator, yields the
forward, the informational notification with an Unban control and the
deletion, and the effect list contains no restriction of any user. -/
theorem ban_dispatch_deletes_but_never_restricts :
    process_message [banRule] 1 100 ["1. Yes"] =
      [{ rule_id := 11, rule_name := "no slurs", rule_description := "slurs",
         message_id := 100 }] ∧
    process_rule_match [banRule] oneChat oneModerator []
        (toDeciderMsg { rule_id := 11, rule_name := "no slurs",
                        rule_description := "slurs", message_id := 100 }) =
      [Effect.forward 1 7 100, Effect.notify 7 Control.unbanButton,
       Effect.deleteMessage 1 100] := by
  exact ⟨by decide, by decide⟩

/-- C6: for a message whose signals all carry has_video, no ReadyEvent for
that message_id is published by any delivery trace, in either arrival
order, before both an Images and a TranscribedAudio signal for it were
merged: any published ready message for it implies both kinds already
appear among the delivered signals of the trace (and hence of every prefix
in which the publication happens). -/
theorem no_ready_until_both_video_signals (evs : List AggEvent) (m : Int)
    (hv : ∀ e ∈ evs, e.2.message_id = some m → e.2.has_video = true)
    (r : ReadyMsg) (hr : r ∈ (runAgg evs).2) (hm : r.message_id = some m) :
    SigKind.images ∈ deliveredKinds evs m ∧
    SigKind.transcribedAudio ∈ deliveredKinds evs m := by
  have h := runAggFrom_video_gate m evs initAgg ∅ (by simp [initAgg]) hv r hr hm
  simpa using h

/-- Witness for C6 at a concrete input: the images-then-audio trace of
video message 2 publishes its ready message, and both kinds were indeed
delivered. -/
theorem no_ready_until_both_video_signals_witness :
    SigKind.images ∈ deliveredKinds videoTrace 2 ∧
    SigKind.transcribedAudio ∈ deliveredKinds videoTrace 2 :=
  no_ready_until_both_video_signals videoTrace 2 (by decide) readyVideo2
    (by decide) (by decide)

/-- C7 counterexample: message 2 first merges an images signal carrying
has_video and one image id; merging a second signal of another kind that
carries has_video false and empty asset lists overwrites the accumulated
flags and lists instead of unioning them: the accumulated has_video
becomes false and the accumulated image id list becomes empty, though the
union of old and incoming values would be true and the one-element list. -/
theorem merge_overwrites_flags_and_asset_lists :
    ((process_images_message videoImagesEvent initAgg).1.message_data (some 2)).has_video
        = true ∧
    ((process_images_message videoImagesEvent initAgg).1.message_data (some 2)).image_uuids
        = ["img-a"] ∧
    underReportingAudioEvent.has_video = false ∧
    ((process_transcribed_audio_message underReportingAudioEvent
        (process_images_message videoImagesEvent initAgg).1).1.message_data
          (some 2)).has_video = false ∧
    ((process_transcribed_audio_message underReportingAudioEvent
        (process_images_message videoImagesEvent initAgg).1).1.message_data
          (some 2)).image_uuids = [] := by
  refine ⟨by decide, by decide, by decide, by decide, by decide⟩

/-- C7 (amended): merging a SignalEvent into the accumulated record is
last-write-wins for every overwritten field, including the modality flags
and the asset-id lists, which are replaced by the incoming values (with
false and empty defaults), not unioned; the event is stored under its own
kind and the payloads stored for the other kinds are kept. -/
theorem merge_last_write_wins (st : AggState) (k : SigKind) (d : SigData)
    (h : (processSignal k d st).2 = none) :
    ((processSignal k d st).1.message_data d.message_id).has_video = d.has_video ∧
    ((processSignal k d st).1.message_data d.message_id).has_photo = d.has_photo ∧
    ((processSignal k d st).1.message_data d.message_id).has_audio = d.has_audio ∧
    ((processSignal k d st).1.message_data d.message_id).image_uuids = d.image_uuids ∧
    ((processSignal k d st).1.message_data d.message_id).audio_uuids = d.audio_uuids ∧
    storedEvent ((processSignal k d st).1.message_data d.message_id) k = some d ∧
    ∀ k2, k2 ≠ k →
      storedEvent ((processSignal k d st).1.message_data d.message_id) k2 =
        storedEvent (st.message_data d.message_id) k2 := by
  have hfst : (processSignal k d st).1 = mergedAgg k d st :=
    check_and_send_info_no_emit (mergedAgg k d st) d.message_id h
  rw [hfst]
  have hmd : (mergedAgg k d st).message_data d.message_id =
      mergeEvent k d (st.message_data d.message_id) := by
    unfold mergedAgg
    simp
  rw [hmd]
  refine ⟨rfl, rfl, rfl, rfl, rfl, ?_, ?_⟩
  · cases k <;> simp [storedEvent, mergeEvent]
  · intro k2 hk2
    cases k <;> cases k2 <;>
      first
        | exact absurd rfl hk2
        | simp [storedEvent, mergeEvent]

/-- Witness for C7 at a concrete input: merging the images signal of video
message 2 into the empty state publishes nothing, and the accumulated
fields equal the incoming ones. -/
theorem merge_last_write_wins_witness :
    ((processSignal SigKind.images videoImagesEvent initAgg).1.message_data
        videoImagesEvent.message_id).has_video = videoImagesEvent.has_video ∧
    ((processSignal SigKind.images videoImagesEvent initAgg).1.message_data
        videoImagesEvent.message_id).has_photo = videoImagesEvent.has_photo ∧
    ((processSignal SigKind.images videoImagesEvent initAgg).1.message_data
        videoImagesEvent.message_id).has_audio = videoImagesEvent.has_audio ∧
    ((processSignal SigKind.images videoImagesEvent initAgg).1.message_data
        videoImagesEvent.message_id).image_uuids = videoImagesEvent.image_uuids ∧
    ((processSignal SigKind.images videoImagesEvent initAgg).1.message_data
        videoImagesEvent.message_id).audio_uuids = videoImagesEvent.audio_uuids ∧
    storedEvent ((processSignal SigKind.images videoImagesEvent initAgg).1.message_data
        videoImagesEvent.message_id) SigKind.images = some videoImagesEvent ∧
    ∀ k2, k2 ≠ SigKind.images →
      storedEvent ((processSignal SigKind.images videoImagesEvent initAgg).1.message_data
          videoImagesEvent.message_id) k2 =
        storedEvent (initAgg.message_data videoImagesEvent.message_id) k2 :=
  merge_last_write_wins initAgg SigKind.images videoImagesEvent (by decide)

/-- C8 counterexample: a text signal whose JSON lacks the message_id key is
not dropped: it is processed under the null key, completes at once because
its non-empty text is its only requirement, and the aggregator publishes a
ReadyEvent whose message_id is null, refuting the claimed drop-and-log
failure semantics. -/
theorem missing_message_id_event_emits_ready :
    (process_text_message orphanTextEvent initAgg).2 =
      some { message_id := none, chat_id := 9, has_video := false, has_photo := false,
             has_audio := false, image_uuids := [], audio_uuids := [],
             transcribed_text := none, text := some "hi" } := by decide

/-- C8 (amended): an event lacking message_id is processed like any other
under the null aggregation key, so it can create a pending aggregation and
even publish a ReadyEvent with a null message_id; the part of the claim
that survives is isolation: the aggregation state of every real message_id
is left completely unchanged by such an event. -/
theorem missing_message_id_event_leaves_others_unchanged
    (st : AggState) (k : SigKind) (d : SigData) (hmid : d.message_id = none)
    (m : Int) :
    (processSignal k d st).1.message_data (some m) = st.message_data (some m) ∧
    (processSignal k d st).1.pending (some m) = st.pending (some m) :=
  processSignal_other_keys k d st (some m) (by simp [hmid])

/-- Witness for C8 at a concrete input: the orphan text event leaves the
aggregation entry of message 3 untouched. -/
theorem missing_message_id_event_leaves_others_unchanged_witness :
    (processSignal SigKind.text orphanTextEvent initAgg).1.message_data (some 3) =
      initAgg.message_data (some 3) ∧
    (processSignal SigKind.text orphanTextEvent initAgg).1.pending (some 3) =
      initAgg.pending (some 3) :=
  missing_message_id_event_leaves_others_unchanged initAgg SigKind.text
    orphanTextEvent rfl 3

/-- C9: toggling a violation decision from BAN to UNBAN through the action
control records UNBAN as an appended decision row, so the current decision
(the latest recorded row for that violation) becomes UNBAN, and when the
platform unban call succeeds the control presented back to the moderator is
a Ban control again, closing the toggle round trip. -/
theorem unban_toggle_roundtrip (db : BotDb) (vid moderator : Int)
    (hviol : (get_rule_violation db vid).isSome = true)
    (_hcur : currentDecision db vid = some "BAN") :
    currentDecision (handle_violation_action db vid "UNBAN" moderator true).1 vid =
      some "UNBAN" ∧
    (handle_violation_action db vid "UNBAN" moderator true).2 =
      some Control.banButton := by
  obtain ⟨v, hv⟩ := Option.isSome_iff_exists.mp hviol
  unfold handle_violation_action
  rw [hv]
  dsimp only
  rw [if_neg (by simp)]
  refine ⟨currentDecision_add (update_decision db vid "UNBAN") vid moderator "UNBAN", ?_⟩
  rw [if_neg (by decide)]

/-- Witness for C9 at a concrete input: violation 1 of botDb0 currently
decided BAN toggles to a current decision of UNBAN with a Ban control. -/
theorem unban_toggle_roundtrip_witness :
    currentDecision (handle_violation_action botDb0 1 "UNBAN" 7 true).1 1 =
      some "UNBAN" ∧
    (handle_violation_action botDb0 1 "UNBAN" 7 true).2 = some Control.banButton :=
  unban_toggle_roundtrip botDb0 1 7 (by decide) (by decide)

/-- C10: the handler records the new decision (update_decision followed by
add_decision) before attempting the platform ban or unban call, so when
that call fails the handler returns early: the current decision has still
changed to the new action with no rollback, and only the on-screen control
update is skipped (no new control is presented). -/
theorem decision_persists_on_platform_failure (db : BotDb) (vid moderator : Int)
    (action : String) (hviol : (get_rule_violation db vid).isSome = true)
    (hact : action = "BAN" ∨ action = "UNBAN") :
    currentDecision (handle_violation_action db vid action moderator false).1 vid =
      some action ∧
    (handle_violation_action db vid action moderator false).2 = none := by
  obtain ⟨v, hv⟩ := Option.isSome_iff_exists.mp hviol
  unfold handle_violation_action
  rw [hv]
  dsimp only
  have hc : ((action = "BAN" || action = "UNBAN") && !false) = true := by
    rcases hact with h | h <;> simp [h]
  rw [if_pos hc]
  exact ⟨currentDecision_add (update_decision db vid action) vid moderator action, rfl⟩

/-- Witness for C10 at a concrete input: a BAN tap on violation 1 of botDb0
with a failing platform call still records BAN and presents no control. -/
theorem decision_persists_on_platform_failure_witness :
    currentDecision (handle_violation_action botDb0 1 "BAN" 7 false).1 1 =
      some "BAN" ∧
    (handle_violation_action botDb0 1 "BAN" 7 false).2 = none :=
  decision_persists_on_platform_failure botDb0 1 7 "BAN" (by decide) (Or.inl rfl)
